import Mathlib

/-!
Verification of the broker gateway façade in `src/apiGroww.py`.

The repository wraps an external broker SDK (`gwapex` / `gwapex_base`): each
façade function calls one method of a module-level `StructuredGrowwClient`
object, logs the outcome, and converts the SDK's operational exception
(`GrowwClientException`) into the absent result `None`.

Shallow embedding conventions:
- Python exceptions are the inductive `PyExn`; a raising call is
  `Except.error e`, a normal return is `Except.ok v`.
- The external client object is a record of method behaviours
  (`StructuredGrowwClient`); the façade is parameterised by it, standing for
  the module-level global `groww_client`.
- Each façade call returns a `FacadeResult`: its Python outcome
  (`Except.ok (some v)` = returned `v`, `Except.ok none` = returned `None`,
  `Except.error e` = the exception `e` propagated to the caller), the log
  entries it emitted in order, and the trace of requests it issued to the
  underlying client in order.
- Broker-defined enums and response schemas belong to the external SDK and
  are opaque here: enums list the members this repository uses plus one
  further member each so that fixed-value claims are non-vacuous; response
  records keep only the fields this repository reads, plus one opaque
  `payload` field standing for the rest of the schema.
- The Python `float` price is only forwarded, never computed with, so it is
  modelled by the exact numeric type `Rat`.
-/

/-- Exchange enum of the external SDK (`gwapex_base.groww.enums`). -/
inductive Exchange where
  | NSE
  | BSE
deriving DecidableEq

/-- Segment enum of the external SDK. -/
inductive Segment where
  | CASH
  | FNO
deriving DecidableEq

/-- Duration enum of the external SDK. -/
inductive Duration where
  | DAY
  | IOC
deriving DecidableEq

/-- Order-type enum of the external SDK. -/
inductive OrderType where
  | LIMIT
  | MARKET
deriving DecidableEq

/-- Transaction-type enum of the external SDK. -/
inductive TransactionType where
  | BUY
  | SELL
deriving DecidableEq

/-- Product enum of the external SDK. -/
inductive Product where
  | CO
  | CNC
  | MIS
deriving DecidableEq

/-- Python exceptions that can cross the façade boundary.
`growwClientException` is the SDK's operational-failure exception; the other
constructors are ordinary Python exceptions (schema failure surfaces as
`keyError`, arity faults as `typeError`). -/
inductive PyExn where
  | growwClientException (msg : String)
  | keyError (key : String)
  | typeError (msg : String)
  | valueError (msg : String)
deriving DecidableEq

/-- Whether an exception is caught by `except GrowwClientException`. -/
def PyExn.isGrowwClientException : PyExn → Bool
  | .growwClientException _ => true
  | _ => false

/-- Whether an exception is caught by an `except ... KeyError` clause. -/
def PyExn.isKeyError : PyExn → Bool
  | .keyError _ => true
  | _ => false

/-- `OrderListResponse` of the SDK; schema opaque to this repository. -/
structure OrderListResponse where
  payload : String
deriving DecidableEq

/-- `HoldingsResponse` of the SDK; schema opaque to this repository. -/
structure HoldingsResponse where
  payload : String
deriving DecidableEq

/-- `LatestIndexResponse` of the SDK; schema opaque to this repository. -/
structure LatestIndexResponse where
  payload : String
deriving DecidableEq

/-- `LatestPriceResponse` of the SDK; schema opaque to this repository. -/
structure LatestPriceResponse where
  payload : String
deriving DecidableEq

/-- `MarketDepthData` of the SDK; schema opaque to this repository. -/
structure MarketDepthData where
  payload : String
deriving DecidableEq

/-- `OrderResponse` of the SDK: the placement response acting as the order
handle. This repository reads exactly `groww_order_id` and
`order_reference_id`; `payload` stands for the rest of the order metadata. -/
structure OrderResponse where
  groww_order_id : String
  order_reference_id : String
  payload : String
deriving DecidableEq

/-- `ModifyOrderResponse` of the SDK; schema opaque to this repository. -/
structure ModifyOrderResponse where
  payload : String
deriving DecidableEq

/-- `TradeResponse` of the SDK: the sequence of fills for an order; the fill
schema itself is opaque to this repository. -/
structure TradeResponse where
  trade_list : List String
deriving DecidableEq

/-- `CancelOrderResponse` of the SDK; schema opaque to this repository. -/
structure CancelOrderResponse where
  payload : String
deriving DecidableEq

/-- `OrderDetailResponse` of the SDK; schema opaque to this repository. -/
structure OrderDetailResponse where
  payload : String
deriving DecidableEq

/-- `SymbolToPositionsResponse` of the SDK: a mapping from symbol to position
detail (the detail schema is opaque), modelled as an association list. -/
structure SymbolToPositionsResponse where
  symbol_wise_positions : List (String × String)
deriving DecidableEq

/-- `PositionsResponse` of the SDK; schema opaque to this repository. -/
structure PositionsResponse where
  payload : String
deriving DecidableEq

/-- `MarginAvailableResponse` of the SDK; schema opaque to this repository. -/
structure MarginAvailableResponse where
  payload : String
deriving DecidableEq

/-- A request issued to the underlying client, one constructor per client
method used by this repository, carrying exactly the arguments the façade
passes. -/
inductive ClientRequest where
  | get_order_list
  | get_holdings_for_user (timeout : Int)
  | get_latest_index_data (symbol : String) (exchange : Exchange)
      (segment : Segment) (timeout : Int)
  | get_latest_price_data (symbol : String) (exchange : Exchange)
      (segment : Segment) (timeout : Int)
  | get_market_depth (symbol : String) (exchange : Exchange)
      (segment : Segment) (timeout : Int)
  | place_order (duration : Duration) (exchange : Exchange)
      (transaction_type : TransactionType) (order_type : OrderType)
      (price : Rat) (product : Product) (qty : Int) (segment : Segment)
      (symbol : String) (timeout : Int)
  | modify_order (groww_order_id : String) (order_reference_id : String)
      (order_type : OrderType) (price : Rat) (qty : Int) (segment : Segment)
      (timeout : Int)
  | get_trade_list_for_order (groww_order_id : String) (segment : Segment)
      (timeout : Int)
  | cancel_order (groww_order_id : String) (order_reference_id : String)
      (segment : Segment) (timeout : Int)
  | get_order_detail (groww_order_id : String) (segment : Segment)
      (timeout : Int)
  | get_positions_for_user (segment : Segment) (timeout : Int)
  | get_position_for_symbol (symbol_isin : String) (timeout : Int)
  | get_available_margin_details (timeout : Int)
deriving DecidableEq

/-- The segment argument carried by a client request, when it has one. -/
def ClientRequest.segmentArg : ClientRequest → Option Segment
  | .get_order_list => none
  | .get_holdings_for_user _ => none
  | .get_latest_index_data _ _ s _ => some s
  | .get_latest_price_data _ _ s _ => some s
  | .get_market_depth _ _ s _ => some s
  | .place_order _ _ _ _ _ _ _ s _ _ => some s
  | .modify_order _ _ _ _ _ s _ => some s
  | .get_trade_list_for_order _ s _ => some s
  | .cancel_order _ _ s _ => some s
  | .get_order_detail _ s _ => some s
  | .get_positions_for_user s _ => some s
  | .get_position_for_symbol _ _ => none
  | .get_available_margin_details _ => none

/-- The timeout argument carried by a client request, when it has one. -/
def ClientRequest.timeoutArg : ClientRequest → Option Int
  | .get_order_list => none
  | .get_holdings_for_user t => some t
  | .get_latest_index_data _ _ _ t => some t
  | .get_latest_price_data _ _ _ t => some t
  | .get_market_depth _ _ _ t => some t
  | .place_order _ _ _ _ _ _ _ _ _ t => some t
  | .modify_order _ _ _ _ _ _ t => some t
  | .get_trade_list_for_order _ _ t => some t
  | .cancel_order _ _ _ t => some t
  | .get_order_detail _ _ t => some t
  | .get_positions_for_user _ t => some t
  | .get_position_for_symbol _ t => some t
  | .get_available_margin_details t => some t

/-- Log levels used by the façade. -/
inductive LogLevel where
  | INFO
  | ERROR
deriving DecidableEq

/-- The `%s` argument of a log call: either a response value or the caught
exception. -/
inductive LogArg where
  | exn (e : PyExn)
  | orderList (v : OrderListResponse)
  | holdings (v : HoldingsResponse)
  | latestIndex (v : LatestIndexResponse)
  | latestPrice (v : LatestPriceResponse)
  | marketDepth (v : MarketDepthData)
  | order (v : OrderResponse)
  | modifyOrder (v : ModifyOrderResponse)
  | trades (v : TradeResponse)
  | cancelOrder (v : CancelOrderResponse)
  | orderDetail (v : OrderDetailResponse)
  | positions (v : SymbolToPositionsResponse)
  | positionsForSymbol (v : PositionsResponse)
  | margin (v : MarginAvailableResponse)
deriving DecidableEq

/-- One emitted log entry: level, format template, `%s` argument. -/
structure LogEntry where
  level : LogLevel
  template : String
  arg : LogArg
deriving DecidableEq

/-- Outcome of one façade call.
`result = Except.ok (some v)`: the call returned the value `v`;
`result = Except.ok none`: the call returned Python `None`;
`result = Except.error e`: the exception `e` propagated to the caller.
`logs` are the log entries emitted, in order; `calls` is the trace of
requests issued to the underlying client, in order. -/
structure FacadeResult (α : Type) where
  result : Except PyExn (Option α)
  logs : List LogEntry
  calls : List ClientRequest

/-- Behaviour of the external `StructuredGrowwClient` object: one function
per SDK method used by this repository, each either returning its response
type or raising a `PyExn`. -/
structure StructuredGrowwClient where
  get_order_list : Unit → Except PyExn OrderListResponse
  get_holdings_for_user : Int → Except PyExn HoldingsResponse
  get_latest_index_data :
    String → Exchange → Segment → Int → Except PyExn LatestIndexResponse
  get_latest_price_data :
    String → Exchange → Segment → Int → Except PyExn LatestPriceResponse
  get_market_depth :
    String → Exchange → Segment → Int → Except PyExn MarketDepthData
  place_order :
    Duration → Exchange → TransactionType → OrderType → Rat → Product →
      Int → Segment → String → Int → Except PyExn OrderResponse
  modify_order :
    String → String → OrderType → Rat → Int → Segment → Int →
      Except PyExn ModifyOrderResponse
  get_trade_list_for_order :
    String → Segment → Int → Except PyExn TradeResponse
  cancel_order :
    String → String → Segment → Int → Except PyExn CancelOrderResponse
  get_order_detail :
    String → Segment → Int → Except PyExn OrderDetailResponse
  get_positions_for_user :
    Segment → Int → Except PyExn SymbolToPositionsResponse
  get_position_for_symbol :
    String → Int → Except PyExn PositionsResponse
  get_available_margin_details : Int → Except PyExn MarginAvailableResponse

/-- `get_current_orders` (src/apiGroww.py lines 18-28): fetch and log the
current orders. -/
def get_current_orders (groww_client : StructuredGrowwClient) :
    FacadeResult OrderListResponse :=
  match groww_client.get_order_list () with
  | .ok orders =>
      { result := .ok (some orders)
        logs := [⟨.INFO, "Current orders: %s", .orderList orders⟩]
        calls := [.get_order_list] }
  | .error e =>
      if e.isGrowwClientException then
        { result := .ok none
          logs := [⟨.ERROR, "Failed to get orders: %s", .exn e⟩]
          calls := [.get_order_list] }
      else
        { result := .error e, logs := [], calls := [.get_order_list] }

/-- `get_holdings` (src/apiGroww.py lines 31-41): fetch and log the user's
holdings; the client is called with the fixed `timeout=5`. -/
def get_holdings (groww_client : StructuredGrowwClient) :
    FacadeResult HoldingsResponse :=
  match groww_client.get_holdings_for_user 5 with
  | .ok holdings_response =>
      { result := .ok (some holdings_response)
        logs := [⟨.INFO, "Holdings: %s", .holdings holdings_response⟩]
        calls := [.get_holdings_for_user 5] }
  | .error e =>
      if e.isGrowwClientException then
        { result := .ok none
          logs := [⟨.ERROR, "Failed to get holdings: %s", .exn e⟩]
          calls := [.get_holdings_for_user 5] }
      else
        { result := .error e, logs := [], calls := [.get_holdings_for_user 5] }

/-- `get_latest_index_data` (src/apiGroww.py lines 44-59): takes no
arguments; queries the client with the hard-coded triple
(symbol "NIFTY", Exchange.NSE, Segment.CASH) and `timeout=5`. -/
def get_latest_index_data (groww_client : StructuredGrowwClient) :
    FacadeResult LatestIndexResponse :=
  match groww_client.get_latest_index_data "NIFTY" Exchange.NSE Segment.CASH 5 with
  | .ok latest_index_data =>
      { result := .ok (some latest_index_data)
        logs := [⟨.INFO, "Latest index data: %s", .latestIndex latest_index_data⟩]
        calls := [.get_latest_index_data "NIFTY" Exchange.NSE Segment.CASH 5] }
  | .error e =>
      if e.isGrowwClientException then
        { result := .ok none
          logs := [⟨.ERROR, "Failed to get latest index data: %s", .exn e⟩]
          calls := [.get_latest_index_data "NIFTY" Exchange.NSE Segment.CASH 5] }
      else
        { result := .error e, logs := []
          calls := [.get_latest_index_data "NIFTY" Exchange.NSE Segment.CASH 5] }

/-- `get_latest_price_data` (src/apiGroww.py lines 62-77): fetch and log the
latest price data for the caller's (symbol, exchange, segment); `timeout=5`
is fixed. -/
def get_latest_price_data (symbol : String) (exchange : Exchange)
    (segment : Segment) (groww_client : StructuredGrowwClient) :
    FacadeResult LatestPriceResponse :=
  match groww_client.get_latest_price_data symbol exchange segment 5 with
  | .ok latest_price_data =>
      { result := .ok (some latest_price_data)
        logs := [⟨.INFO, "Latest price data: %s", .latestPrice latest_price_data⟩]
        calls := [.get_latest_price_data symbol exchange segment 5] }
  | .error e =>
      if e.isGrowwClientException then
        { result := .ok none
          logs := [⟨.ERROR, "Failed to get latest price data: %s", .exn e⟩]
          calls := [.get_latest_price_data symbol exchange segment 5] }
      else
        { result := .error e, logs := []
          calls := [.get_latest_price_data symbol exchange segment 5] }

/-- `get_market_depth` (src/apiGroww.py lines 80-95): fetch and log the
market depth for the caller's (symbol, exchange, segment); `timeout=5` is
fixed. -/
def get_market_depth (symbol : String) (exchange : Exchange)
    (segment : Segment) (groww_client : StructuredGrowwClient) :
    FacadeResult MarketDepthData :=
  match groww_client.get_market_depth symbol exchange segment 5 with
  | .ok market_depth_data =>
      { result := .ok (some market_depth_data)
        logs := [⟨.INFO, "Market depth data: %s", .marketDepth market_depth_data⟩]
        calls := [.get_market_depth symbol exchange segment 5] }
  | .error e =>
      if e.isGrowwClientException then
        { result := .ok none
          logs := [⟨.ERROR, "Failed to get market depth data: %s", .exn e⟩]
          calls := [.get_market_depth symbol exchange segment 5] }
      else
        { result := .error e, logs := []
          calls := [.get_market_depth symbol exchange segment 5] }

/-- `place_order` (src/apiGroww.py lines 98-145): place an order; the only
façade operation that forwards a caller-supplied `timeout`. -/
def place_order (duration : Duration) (exchange : Exchange)
    (transaction_type : TransactionType) (order_type : OrderType)
    (price : Rat) (product : Product) (qty : Int) (segment : Segment)
    (symbol : String) (timeout : Int) (groww_client : StructuredGrowwClient) :
    FacadeResult OrderResponse :=
  match groww_client.place_order duration exchange transaction_type order_type
      price product qty segment symbol timeout with
  | .ok create_order_response =>
      { result := .ok (some create_order_response)
        logs := [⟨.INFO, "Order placed: %s", .order create_order_response⟩]
        calls := [.place_order duration exchange transaction_type order_type
          price product qty segment symbol timeout] }
  | .error e =>
      if e.isGrowwClientException then
        { result := .ok none
          logs := [⟨.ERROR, "Failed to place order: %s", .exn e⟩]
          calls := [.place_order duration exchange transaction_type order_type
            price product qty segment symbol timeout] }
      else
        { result := .error e, logs := []
          calls := [.place_order duration exchange transaction_type order_type
            price product qty segment symbol timeout] }

/-- `modify_order` (src/apiGroww.py lines 148-179): modify an existing order,
reading `groww_order_id` and `order_reference_id` from the placement
response; `timeout=5` is fixed. -/
def modify_order (order_type : OrderType) (price : Rat) (qty : Int)
    (segment : Segment) (create_order_response : OrderResponse)
    (groww_client : StructuredGrowwClient) :
    FacadeResult ModifyOrderResponse :=
  match groww_client.modify_order create_order_response.groww_order_id
      create_order_response.order_reference_id order_type price qty segment 5 with
  | .ok modify_order_response =>
      { result := .ok (some modify_order_response)
        logs := [⟨.INFO, "Order modified: %s", .modifyOrder modify_order_response⟩]
        calls := [.modify_order create_order_response.groww_order_id
          create_order_response.order_reference_id order_type price qty segment 5] }
  | .error e =>
      if e.isGrowwClientException then
        { result := .ok none
          logs := [⟨.ERROR, "Failed to modify order: %s", .exn e⟩]
          calls := [.modify_order create_order_response.groww_order_id
            create_order_response.order_reference_id order_type price qty segment 5] }
      else
        { result := .error e, logs := []
          calls := [.modify_order create_order_response.groww_order_id
            create_order_response.order_reference_id order_type price qty segment 5] }

/-- `get_trades` (src/apiGroww.py lines 182-203): fetch the trades for an
order, reading `groww_order_id` from the placement response; the segment is
hard-coded to `Segment.CASH` and `timeout=5` is fixed. -/
def get_trades (create_order_response : OrderResponse)
    (groww_client : StructuredGrowwClient) : FacadeResult TradeResponse :=
  match groww_client.get_trade_list_for_order
      create_order_response.groww_order_id Segment.CASH 5 with
  | .ok trade_response =>
      { result := .ok (some trade_response)
        logs := [⟨.INFO, "Trades: %s", .trades trade_response⟩]
        calls := [.get_trade_list_for_order
          create_order_response.groww_order_id Segment.CASH 5] }
  | .error e =>
      if e.isGrowwClientException then
        { result := .ok none
          logs := [⟨.ERROR, "Failed to get trades: %s", .exn e⟩]
          calls := [.get_trade_list_for_order
            create_order_response.groww_order_id Segment.CASH 5] }
      else
        { result := .error e, logs := []
          calls := [.get_trade_list_for_order
            create_order_response.groww_order_id Segment.CASH 5] }

/-- `cancel_order` (src/apiGroww.py lines 206-228): cancel an existing order,
reading both identifier fields from the placement response; the segment is
hard-coded to `Segment.CASH` and `timeout=5` is fixed. -/
def cancel_order (create_order_response : OrderResponse)
    (groww_client : StructuredGrowwClient) : FacadeResult CancelOrderResponse :=
  match groww_client.cancel_order create_order_response.groww_order_id
      create_order_response.order_reference_id Segment.CASH 5 with
  | .ok cancel_response =>
      { result := .ok (some cancel_response)
        logs := [⟨.INFO, "Order canceled: %s", .cancelOrder cancel_response⟩]
        calls := [.cancel_order create_order_response.groww_order_id
          create_order_response.order_reference_id Segment.CASH 5] }
  | .error e =>
      if e.isGrowwClientException then
        { result := .ok none
          logs := [⟨.ERROR, "Failed to cancel order: %s", .exn e⟩]
          calls := [.cancel_order create_order_response.groww_order_id
            create_order_response.order_reference_id Segment.CASH 5] }
      else
        { result := .error e, logs := []
          calls := [.cancel_order create_order_response.groww_order_id
            create_order_response.order_reference_id Segment.CASH 5] }

/-- `get_order_details` (src/apiGroww.py lines 231-252): get the details of
an order; the only façade operation whose except clause also catches
`KeyError` (`except (GrowwClientException, KeyError)`); segment hard-coded
to `Segment.CASH`, `timeout=5` fixed. -/
def get_order_details (create_order_response : OrderResponse)
    (groww_client : StructuredGrowwClient) : FacadeResult OrderDetailResponse :=
  match groww_client.get_order_detail
      create_order_response.groww_order_id Segment.CASH 5 with
  | .ok order_details =>
      { result := .ok (some order_details)
        logs := [⟨.INFO, "Order details: %s", .orderDetail order_details⟩]
        calls := [.get_order_detail
          create_order_response.groww_order_id Segment.CASH 5] }
  | .error e =>
      if e.isGrowwClientException || e.isKeyError then
        { result := .ok none
          logs := [⟨.ERROR, "Failed to get order details: %s", .exn e⟩]
          calls := [.get_order_detail
            create_order_response.groww_order_id Segment.CASH 5] }
      else
        { result := .error e, logs := []
          calls := [.get_order_detail
            create_order_response.groww_order_id Segment.CASH 5] }

/-- `get_positions` (src/apiGroww.py lines 255-274): fetch and log the user's
positions; the segment is hard-coded to `Segment.CASH` and `timeout=5` is
fixed. -/
def get_positions (groww_client : StructuredGrowwClient) :
    FacadeResult SymbolToPositionsResponse :=
  match groww_client.get_positions_for_user Segment.CASH 5 with
  | .ok positions =>
      { result := .ok (some positions)
        logs := [⟨.INFO, "Positions: %s", .positions positions⟩]
        calls := [.get_positions_for_user Segment.CASH 5] }
  | .error e =>
      if e.isGrowwClientException then
        { result := .ok none
          logs := [⟨.ERROR, "Failed to get positions: %s", .exn e⟩]
          calls := [.get_positions_for_user Segment.CASH 5] }
      else
        { result := .error e, logs := []
          calls := [.get_positions_for_user Segment.CASH 5] }

/-- `get_position_for_symbol` (src/apiGroww.py lines 277-298): fetch the
user's positions for one symbol, passed as `symbol_isin`; `timeout=5`
fixed. -/
def get_position_for_symbol (symbol : String)
    (groww_client : StructuredGrowwClient) : FacadeResult PositionsResponse :=
  match groww_client.get_position_for_symbol symbol 5 with
  | .ok positions =>
      { result := .ok (some positions)
        logs := [⟨.INFO, "Positions for symbol: %s", .positionsForSymbol positions⟩]
        calls := [.get_position_for_symbol symbol 5] }
  | .error e =>
      if e.isGrowwClientException then
        { result := .ok none
          logs := [⟨.ERROR, "Failed to get positions for symbol: %s", .exn e⟩]
          calls := [.get_position_for_symbol symbol 5] }
      else
        { result := .error e, logs := []
          calls := [.get_position_for_symbol symbol 5] }

/-- `get_available_margin_for_user` (src/apiGroww.py lines 301-319): fetch
and log the user's available margin; `timeout=5` fixed. -/
def get_available_margin_for_user (groww_client : StructuredGrowwClient) :
    FacadeResult MarginAvailableResponse :=
  match groww_client.get_available_margin_details 5 with
  | .ok margin_available =>
      { result := .ok (some margin_available)
        logs := [⟨.INFO, "Margin available: %s", .margin margin_available⟩]
        calls := [.get_available_margin_details 5] }
  | .error e =>
      if e.isGrowwClientException then
        { result := .ok none
          logs := [⟨.ERROR, "Failed to get margin available: %s", .exn e⟩]
          calls := [.get_available_margin_details 5] }
      else
        { result := .error e, logs := []
          calls := [.get_available_margin_details 5] }

/-- `test_groww_client` (src/apiGroww.py lines 322-353), the demo driver,
embedded with Python call semantics: a call with the wrong number of
arguments raises `TypeError` at the call site, before the callee body runs.
The driver runs `get_current_orders()` and `get_latest_index_data()`, then
reaches `get_latest_price_data()` — called with no arguments although three
are required — so a `TypeError` is raised there; every later line of the
driver (including `get_market_depth()` with no arguments, the order flow,
and `get_position_for_symbol(groww_client, symbol)` with an extra leading
argument) is unreachable. -/
def test_groww_client (groww_client : StructuredGrowwClient) :
    FacadeResult Unit :=
  let r1 := get_current_orders groww_client
  match r1.result with
  | .error e => { result := .error e, logs := r1.logs, calls := r1.calls }
  | .ok _ =>
    let r2 := get_latest_index_data groww_client
    match r2.result with
    | .error e =>
        { result := .error e
          logs := r1.logs ++ r2.logs
          calls := r1.calls ++ r2.calls }
    | .ok _ =>
        { result := .error (.typeError
            "get_latest_price_data() missing 3 required positional arguments: symbol, exchange, and segment")
          logs := r1.logs ++ r2.logs
          calls := r1.calls ++ r2.calls }

/-- A client whose every method returns a fixed success value, used to
evaluate the façade on concrete inputs. Its position listing is the empty
mapping and its trade listing is the empty sequence. -/
def okClient : StructuredGrowwClient :=
  { get_order_list := fun _ => .ok ⟨"orders"⟩
    get_holdings_for_user := fun _ => .ok ⟨"holdings"⟩
    get_latest_index_data := fun _ _ _ _ => .ok ⟨"index"⟩
    get_latest_price_data := fun _ _ _ _ => .ok ⟨"price"⟩
    get_market_depth := fun _ _ _ _ => .ok ⟨"depth"⟩
    place_order := fun _ _ _ _ _ _ _ _ _ _ => .ok ⟨"GID-1", "RID-1", "meta"⟩
    modify_order := fun _ _ _ _ _ _ _ => .ok ⟨"modified"⟩
    get_trade_list_for_order := fun _ _ _ => .ok ⟨[]⟩
    cancel_order := fun _ _ _ _ => .ok ⟨"cancelled"⟩
    get_order_detail := fun _ _ _ => .ok ⟨"detail"⟩
    get_positions_for_user := fun _ _ => .ok ⟨[]⟩
    get_position_for_symbol := fun _ _ => .ok ⟨"pos"⟩
    get_available_margin_details := fun _ => .ok ⟨"margin"⟩ }

/-- A client whose every method raises the given exception, used to evaluate
the façade's failure paths on concrete inputs. -/
def raisingClient (e : PyExn) : StructuredGrowwClient :=
  { get_order_list := fun _ => .error e
    get_holdings_for_user := fun _ => .error e
    get_latest_index_data := fun _ _ _ _ => .error e
    get_latest_price_data := fun _ _ _ _ => .error e
    get_market_depth := fun _ _ _ _ => .error e
    place_order := fun _ _ _ _ _ _ _ _ _ _ => .error e
    modify_order := fun _ _ _ _ _ _ _ => .error e
    get_trade_list_for_order := fun _ _ _ => .error e
    cancel_order := fun _ _ _ _ => .error e
    get_order_detail := fun _ _ _ => .error e
    get_positions_for_user := fun _ _ => .error e
    get_position_for_symbol := fun _ _ => .error e
    get_available_margin_details := fun _ => .error e }

/-- A concrete placement response used as an order handle in witnesses. -/
def sampleOrder : OrderResponse :=
  { groww_order_id := "GID-1", order_reference_id := "RID-1", payload := "meta-A" }

/-- A placement response with the same identifiers as `sampleOrder` but
different remaining metadata. -/
def sampleOrderAlt : OrderResponse :=
  { groww_order_id := "GID-1", order_reference_id := "RID-1", payload := "meta-B" }

theorem get_current_orders_calls (gc : StructuredGrowwClient) :
    (get_current_orders gc).calls = [.get_order_list] := by
  unfold get_current_orders
  cases gc.get_order_list () with
  | ok v => rfl
  | error e => by_cases h : e.isGrowwClientException = true <;> simp [h]

theorem get_holdings_calls (gc : StructuredGrowwClient) :
    (get_holdings gc).calls = [.get_holdings_for_user 5] := by
  unfold get_holdings
  cases gc.get_holdings_for_user 5 with
  | ok v => rfl
  | error e => by_cases h : e.isGrowwClientException = true <;> simp [h]

theorem get_latest_index_data_calls (gc : StructuredGrowwClient) :
    (get_latest_index_data gc).calls
      = [.get_latest_index_data "NIFTY" Exchange.NSE Segment.CASH 5] := by
  unfold get_latest_index_data
  cases gc.get_latest_index_data "NIFTY" Exchange.NSE Segment.CASH 5 with
  | ok v => rfl
  | error e => by_cases h : e.isGrowwClientException = true <;> simp [h]

theorem get_latest_price_data_calls (symbol : String) (exchange : Exchange)
    (segment : Segment) (gc : StructuredGrowwClient) :
    (get_latest_price_data symbol exchange segment gc).calls
      = [.get_latest_price_data symbol exchange segment 5] := by
  unfold get_latest_price_data
  cases gc.get_latest_price_data symbol exchange segment 5 with
  | ok v => rfl
  | error e => by_cases h : e.isGrowwClientException = true <;> simp [h]

theorem get_market_depth_calls (symbol : String) (exchange : Exchange)
    (segment : Segment) (gc : StructuredGrowwClient) :
    (get_market_depth symbol exchange segment gc).calls
      = [.get_market_depth symbol exchange segment 5] := by
  unfold get_market_depth
  cases gc.get_market_depth symbol exchange segment 5 with
  | ok v => rfl
  | error e => by_cases h : e.isGrowwClientException = true <;> simp [h]

theorem place_order_calls (d : Duration) (ex : Exchange)
    (tt : TransactionType) (ot : OrderType) (p : Rat) (pr : Product)
    (q : Int) (sg : Segment) (sym : String) (t : Int)
    (gc : StructuredGrowwClient) :
    (place_order d ex tt ot p pr q sg sym t gc).calls
      = [.place_order d ex tt ot p pr q sg sym t] := by
  unfold place_order
  cases gc.place_order d ex tt ot p pr q sg sym t with
  | ok v => rfl
  | error e => by_cases h : e.isGrowwClientException = true <;> simp [h]

theorem modify_order_calls (ot : OrderType) (p : Rat) (q : Int)
    (sg : Segment) (co : OrderResponse) (gc : StructuredGrowwClient) :
    (modify_order ot p q sg co gc).calls
      = [.modify_order co.groww_order_id co.order_reference_id ot p q sg 5] := by
  unfold modify_order
  cases gc.modify_order co.groww_order_id co.order_reference_id ot p q sg 5 with
  | ok v => rfl
  | error e => by_cases h : e.isGrowwClientException = true <;> simp [h]

theorem get_trades_calls (co : OrderResponse) (gc : StructuredGrowwClient) :
    (get_trades co gc).calls
      = [.get_trade_list_for_order co.groww_order_id Segment.CASH 5] := by
  unfold get_trades
  cases gc.get_trade_list_for_order co.groww_order_id Segment.CASH 5 with
  | ok v => rfl
  | error e => by_cases h : e.isGrowwClientException = true <;> simp [h]

theorem cancel_order_calls (co : OrderResponse) (gc : StructuredGrowwClient) :
    (cancel_order co gc).calls
      = [.cancel_order co.groww_order_id co.order_reference_id Segment.CASH 5] := by
  unfold cancel_order
  cases gc.cancel_order co.groww_order_id co.order_reference_id Segment.CASH 5 with
  | ok v => rfl
  | error e => by_cases h : e.isGrowwClientException = true <;> simp [h]

theorem get_order_details_calls (co : OrderResponse)
    (gc : StructuredGrowwClient) :
    (get_order_details co gc).calls
      = [.get_order_detail co.groww_order_id Segment.CASH 5] := by
  unfold get_order_details
  cases gc.get_order_detail co.groww_order_id Segment.CASH 5 with
  | ok v => rfl
  | error e =>
    by_cases h : e.isGrowwClientException = true <;>
      by_cases h' : e.isKeyError = true <;> simp [h, h']

theorem get_positions_calls (gc : StructuredGrowwClient) :
    (get_positions gc).calls = [.get_positions_for_user Segment.CASH 5] := by
  unfold get_positions
  cases gc.get_positions_for_user Segment.CASH 5 with
  | ok v => rfl
  | error e => by_cases h : e.isGrowwClientException = true <;> simp [h]

theorem get_position_for_symbol_calls (symbol : String)
    (gc : StructuredGrowwClient) :
    (get_position_for_symbol symbol gc).calls
      = [.get_position_for_symbol symbol 5] := by
  unfold get_position_for_symbol
  cases gc.get_position_for_symbol symbol 5 with
  | ok v => rfl
  | error e => by_cases h : e.isGrowwClientException = true <;> simp [h]

theorem get_available_margin_for_user_calls (gc : StructuredGrowwClient) :
    (get_available_margin_for_user gc).calls
      = [.get_available_margin_details 5] := by
  unfold get_available_margin_for_user
  cases gc.get_available_margin_details 5 with
  | ok v => rfl
  | error e => by_cases h : e.isGrowwClientException = true <;> simp [h]

/-- C1: For every façade operation (place_order, modify_order, cancel_order,
get_order_details, get_trades, get_current_orders, get_holdings,
get_positions, get_position_for_symbol, get_available_margin_for_user,
get_latest_index_data, get_latest_price_data, get_market_depth), whenever
the underlying client call raises the operational-failure exception
(GrowwClientException), the operation returns the absent sentinel None,
emits exactly one ERROR log entry recording the cause, and does not let the
exception propagate to the caller. -/
theorem facade_absorbs_groww_failure (e : PyExn)
    (he : e.isGrowwClientException = true) :
    (∀ gc : StructuredGrowwClient, gc.get_order_list () = .error e →
      get_current_orders gc =
        ⟨.ok none, [⟨.ERROR, "Failed to get orders: %s", .exn e⟩],
         [.get_order_list]⟩)
  ∧ (∀ gc : StructuredGrowwClient, gc.get_holdings_for_user 5 = .error e →
      get_holdings gc =
        ⟨.ok none, [⟨.ERROR, "Failed to get holdings: %s", .exn e⟩],
         [.get_holdings_for_user 5]⟩)
  ∧ (∀ gc : StructuredGrowwClient,
      gc.get_latest_index_data "NIFTY" Exchange.NSE Segment.CASH 5 = .error e →
      get_latest_index_data gc =
        ⟨.ok none, [⟨.ERROR, "Failed to get latest index data: %s", .exn e⟩],
         [.get_latest_index_data "NIFTY" Exchange.NSE Segment.CASH 5]⟩)
  ∧ (∀ (sym : String) (ex : Exchange) (sg : Segment)
      (gc : StructuredGrowwClient),
      gc.get_latest_price_data sym ex sg 5 = .error e →
      get_latest_price_data sym ex sg gc =
        ⟨.ok none, [⟨.ERROR, "Failed to get latest price data: %s", .exn e⟩],
         [.get_latest_price_data sym ex sg 5]⟩)
  ∧ (∀ (sym : String) (ex : Exchange) (sg : Segment)
      (gc : StructuredGrowwClient),
      gc.get_market_depth sym ex sg 5 = .error e →
      get_market_depth sym ex sg gc =
        ⟨.ok none, [⟨.ERROR, "Failed to get market depth data: %s", .exn e⟩],
         [.get_market_depth sym ex sg 5]⟩)
  ∧ (∀ (d : Duration) (ex : Exchange) (tt : TransactionType) (ot : OrderType)
      (p : Rat) (pr : Product) (q : Int) (sg : Segment) (sym : String)
      (t : Int) (gc : StructuredGrowwClient),
      gc.place_order d ex tt ot p pr q sg sym t = .error e →
      place_order d ex tt ot p pr q sg sym t gc =
        ⟨.ok none, [⟨.ERROR, "Failed to place order: %s", .exn e⟩],
         [.place_order d ex tt ot p pr q sg sym t]⟩)
  ∧ (∀ (ot : OrderType) (p : Rat) (q : Int) (sg : Segment)
      (co : OrderResponse) (gc : StructuredGrowwClient),
      gc.modify_order co.groww_order_id co.order_reference_id ot p q sg 5
        = .error e →
      modify_order ot p q sg co gc =
        ⟨.ok none, [⟨.ERROR, "Failed to modify order: %s", .exn e⟩],
         [.modify_order co.groww_order_id co.order_reference_id ot p q sg 5]⟩)
  ∧ (∀ (co : OrderResponse) (gc : StructuredGrowwClient),
      gc.get_trade_list_for_order co.groww_order_id Segment.CASH 5 = .error e →
      get_trades co gc =
        ⟨.ok none, [⟨.ERROR, "Failed to get trades: %s", .exn e⟩],
         [.get_trade_list_for_order co.groww_order_id Segment.CASH 5]⟩)
  ∧ (∀ (co : OrderResponse) (gc : StructuredGrowwClient),
      gc.cancel_order co.groww_order_id co.order_reference_id Segment.CASH 5
        = .error e →
      cancel_order co gc =
        ⟨.ok none, [⟨.ERROR, "Failed to cancel order: %s", .exn e⟩],
         [.cancel_order co.groww_order_id co.order_reference_id
           Segment.CASH 5]⟩)
  ∧ (∀ (co : OrderResponse) (gc : StructuredGrowwClient),
      gc.get_order_detail co.groww_order_id Segment.CASH 5 = .error e →
      get_order_details co gc =
        ⟨.ok none, [⟨.ERROR, "Failed to get order details: %s", .exn e⟩],
         [.get_order_detail co.groww_order_id Segment.CASH 5]⟩)
  ∧ (∀ gc : StructuredGrowwClient,
      gc.get_positions_for_user Segment.CASH 5 = .error e →
      get_positions gc =
        ⟨.ok none, [⟨.ERROR, "Failed to get positions: %s", .exn e⟩],
         [.get_positions_for_user Segment.CASH 5]⟩)
  ∧ (∀ (sym : String) (gc : StructuredGrowwClient),
      gc.get_position_for_symbol sym 5 = .error e →
      get_position_for_symbol sym gc =
        ⟨.ok none, [⟨.ERROR, "Failed to get positions for symbol: %s", .exn e⟩],
         [.get_position_for_symbol sym 5]⟩)
  ∧ (∀ gc : StructuredGrowwClient,
      gc.get_available_margin_details 5 = .error e →
      get_available_margin_for_user gc =
        ⟨.ok none, [⟨.ERROR, "Failed to get margin available: %s", .exn e⟩],
         [.get_available_margin_details 5]⟩) := by
  refine ⟨?_, ?_, ?_, ?_, ?_, ?_, ?_, ?_, ?_, ?_, ?_, ?_, ?_⟩
  · intro gc h
    simp [get_current_orders, h, he]
  · intro gc h
    simp [get_holdings, h, he]
  · intro gc h
    simp [get_latest_index_data, h, he]
  · intro sym ex sg gc h
    simp [get_latest_price_data, h, he]
  · intro sym ex sg gc h
    simp [get_market_depth, h, he]
  · intro d ex tt ot p pr q sg sym t gc h
    simp [place_order, h, he]
  · intro ot p q sg co gc h
    simp [modify_order, h, he]
  · intro co gc h
    simp [get_trades, h, he]
  · intro co gc h
    simp [cancel_order, h, he]
  · intro co gc h
    simp [get_order_details, h, he]
  · intro gc h
    simp [get_positions, h, he]
  · intro sym gc h
    simp [get_position_for_symbol, h, he]
  · intro gc h
    simp [get_available_margin_for_user, h, he]

/-- Witness for C1: a client whose calls raise a concrete
GrowwClientException makes get_current_orders return None with exactly one
ERROR log entry recording that exception. -/
theorem facade_absorbs_groww_failure_witness :
    get_current_orders (raisingClient (PyExn.growwClientException "boom")) =
      ⟨.ok none,
       [⟨.ERROR, "Failed to get orders: %s",
         .exn (PyExn.growwClientException "boom")⟩],
       [.get_order_list]⟩ :=
  (facade_absorbs_groww_failure (PyExn.growwClientException "boom") rfl).1
    (raisingClient (PyExn.growwClientException "boom")) rfl

/-- Counterexample to C2: `modify_order` does not treat a KeyError like an
operational failure — when the client raises KeyError, the exception
propagates to the caller (which is not GrowwClientException handling) and no
log entry is emitted, contradicting the claim that every façade operation
logs a KeyError and converts it to None. -/
theorem modify_order_propagates_keyerror :
    (modify_order OrderType.LIMIT 100 10 Segment.CASH sampleOrder
        (raisingClient (PyExn.keyError "symbol"))).result
      = Except.error (PyExn.keyError "symbol")
    ∧ (modify_order OrderType.LIMIT 100 10 Segment.CASH sampleOrder
        (raisingClient (PyExn.keyError "symbol"))).logs = [] :=
  ⟨rfl, rfl⟩

/-- C2 as amended: only get_order_details treats a schema failure (KeyError)
like an operational failure, logging one ERROR entry and returning None;
every other façade operation lets a KeyError propagate to the caller,
unlogged and unconverted. -/
theorem keyerror_absorbed_only_by_get_order_details (k : String) :
    (∀ (co : OrderResponse) (gc : StructuredGrowwClient),
      gc.get_order_detail co.groww_order_id Segment.CASH 5
        = .error (PyExn.keyError k) →
      get_order_details co gc =
        ⟨.ok none,
         [⟨.ERROR, "Failed to get order details: %s", .exn (PyExn.keyError k)⟩],
         [.get_order_detail co.groww_order_id Segment.CASH 5]⟩)
  ∧ (∀ gc : StructuredGrowwClient,
      gc.get_order_list () = .error (PyExn.keyError k) →
      get_current_orders gc =
        ⟨.error (PyExn.keyError k), [], [.get_order_list]⟩)
  ∧ (∀ gc : StructuredGrowwClient,
      gc.get_holdings_for_user 5 = .error (PyExn.keyError k) →
      get_holdings gc =
        ⟨.error (PyExn.keyError k), [], [.get_holdings_for_user 5]⟩)
  ∧ (∀ gc : StructuredGrowwClient,
      gc.get_latest_index_data "NIFTY" Exchange.NSE Segment.CASH 5
        = .error (PyExn.keyError k) →
      get_latest_index_data gc =
        ⟨.error (PyExn.keyError k), [],
         [.get_latest_index_data "NIFTY" Exchange.NSE Segment.CASH 5]⟩)
  ∧ (∀ (sym : String) (ex : Exchange) (sg : Segment)
      (gc : StructuredGrowwClient),
      gc.get_latest_price_data sym ex sg 5 = .error (PyExn.keyError k) →
      get_latest_price_data sym ex sg gc =
        ⟨.error (PyExn.keyError k), [], [.get_latest_price_data sym ex sg 5]⟩)
  ∧ (∀ (sym : String) (ex : Exchange) (sg : Segment)
      (gc : StructuredGrowwClient),
      gc.get_market_depth sym ex sg 5 = .error (PyExn.keyError k) →
      get_market_depth sym ex sg gc =
        ⟨.error (PyExn.keyError k), [], [.get_market_depth sym ex sg 5]⟩)
  ∧ (∀ (d : Duration) (ex : Exchange) (tt : TransactionType) (ot : OrderType)
      (p : Rat) (pr : Product) (q : Int) (sg : Segment) (sym : String)
      (t : Int) (gc : StructuredGrowwClient),
      gc.place_order d ex tt ot p pr q sg sym t = .error (PyExn.keyError k) →
      place_order d ex tt ot p pr q sg sym t gc =
        ⟨.error (PyExn.keyError k), [],
         [.place_order d ex tt ot p pr q sg sym t]⟩)
  ∧ (∀ (ot : OrderType) (p : Rat) (q : Int) (sg : Segment)
      (co : OrderResponse) (gc : StructuredGrowwClient),
      gc.modify_order co.groww_order_id co.order_reference_id ot p q sg 5
        = .error (PyExn.keyError k) →
      modify_order ot p q sg co gc =
        ⟨.error (PyExn.keyError k), [],
         [.modify_order co.groww_order_id co.order_reference_id ot p q sg 5]⟩)
  ∧ (∀ (co : OrderResponse) (gc : StructuredGrowwClient),
      gc.get_trade_list_for_order co.groww_order_id Segment.CASH 5
        = .error (PyExn.keyError k) →
      get_trades co gc =
        ⟨.error (PyExn.keyError k), [],
         [.get_trade_list_for_order co.groww_order_id Segment.CASH 5]⟩)
  ∧ (∀ (co : OrderResponse) (gc : StructuredGrowwClient),
      gc.cancel_order co.groww_order_id co.order_reference_id Segment.CASH 5
        = .error (PyExn.keyError k) →
      cancel_order co gc =
        ⟨.error (PyExn.keyError k), [],
         [.cancel_order co.groww_order_id co.order_reference_id
           Segment.CASH 5]⟩)
  ∧ (∀ gc : StructuredGrowwClient,
      gc.get_positions_for_user Segment.CASH 5 = .error (PyExn.keyError k) →
      get_positions gc =
        ⟨.error (PyExn.keyError k), [],
         [.get_positions_for_user Segment.CASH 5]⟩)
  ∧ (∀ (sym : String) (gc : StructuredGrowwClient),
      gc.get_position_for_symbol sym 5 = .error (PyExn.keyError k) →
      get_position_for_symbol sym gc =
        ⟨.error (PyExn.keyError k), [], [.get_position_for_symbol sym 5]⟩)
  ∧ (∀ gc : StructuredGrowwClient,
      gc.get_available_margin_details 5 = .error (PyExn.keyError k) →
      get_available_margin_for_user gc =
        ⟨.error (PyExn.keyError k), [], [.get_available_margin_details 5]⟩) := by
  refine ⟨?_, ?_, ?_, ?_, ?_, ?_, ?_, ?_, ?_, ?_, ?_, ?_, ?_⟩
  · intro co gc h
    simp [get_order_details, h, PyExn.isGrowwClientException, PyExn.isKeyError]
  · intro gc h
    simp [get_current_orders, h, PyExn.isGrowwClientException]
  · intro gc h
    simp [get_holdings, h, PyExn.isGrowwClientException]
  · intro gc h
    simp [get_latest_index_data, h, PyExn.isGrowwClientException]
  · intro sym ex sg gc h
    simp [get_latest_price_data, h, PyExn.isGrowwClientException]
  · intro sym ex sg gc h
    simp [get_market_depth, h, PyExn.isGrowwClientException]
  · intro d ex tt ot p pr q sg sym t gc h
    simp [place_order, h, PyExn.isGrowwClientException]
  · intro ot p q sg co gc h
    simp [modify_order, h, PyExn.isGrowwClientException]
  · intro co gc h
    simp [get_trades, h, PyExn.isGrowwClientException]
  · intro co gc h
    simp [cancel_order, h, PyExn.isGrowwClientException]
  · intro gc h
    simp [get_positions, h, PyExn.isGrowwClientException]
  · intro sym gc h
    simp [get_position_for_symbol, h, PyExn.isGrowwClientException]
  · intro gc h
    simp [get_available_margin_for_user, h, PyExn.isGrowwClientException]

/-- Witness for the amended C2: a concrete KeyError is absorbed by
get_order_details (one ERROR entry, result None) while get_holdings lets the
same KeyError propagate with no log entry. -/
theorem keyerror_absorbed_only_by_get_order_details_witness :
    get_order_details sampleOrder (raisingClient (PyExn.keyError "qty")) =
      ⟨.ok none,
       [⟨.ERROR, "Failed to get order details: %s",
         .exn (PyExn.keyError "qty")⟩],
       [.get_order_detail "GID-1" Segment.CASH 5]⟩
    ∧ get_holdings (raisingClient (PyExn.keyError "qty")) =
      ⟨.error (PyExn.keyError "qty"), [], [.get_holdings_for_user 5]⟩ :=
  ⟨(keyerror_absorbed_only_by_get_order_details "qty").1 sampleOrder
      (raisingClient (PyExn.keyError "qty")) rfl,
   (keyerror_absorbed_only_by_get_order_details "qty").2.2.1
      (raisingClient (PyExn.keyError "qty")) rfl⟩

/-- Counterexample to C3: KeyError is not GrowwClientException, yet
get_order_details catches it, logs it at ERROR, and converts it to None
instead of letting it propagate — so not every non-operational exception
propagates unmodified. -/
theorem get_order_details_catches_keyerror :
    (PyExn.keyError "symbol").isGrowwClientException = false
    ∧ get_order_details sampleOrder (raisingClient (PyExn.keyError "symbol")) =
      ⟨.ok none,
       [⟨.ERROR, "Failed to get order details: %s",
         .exn (PyExn.keyError "symbol")⟩],
       [.get_order_detail "GID-1" Segment.CASH 5]⟩ :=
  ⟨rfl, rfl⟩

/-- C3 as amended: any exception that is not GrowwClientException propagates
unmodified to the caller — uncaught, unlogged, and unconverted — except that
get_order_details additionally absorbs KeyError; in get_order_details, any
exception that is neither GrowwClientException nor KeyError propagates
unmodified. -/
theorem non_groww_exceptions_propagate (e : PyExn)
    (he : e.isGrowwClientException = false) :
    (∀ gc : StructuredGrowwClient, gc.get_order_list () = .error e →
      get_current_orders gc = ⟨.error e, [], [.get_order_list]⟩)
  ∧ (∀ gc : StructuredGrowwClient, gc.get_holdings_for_user 5 = .error e →
      get_holdings gc = ⟨.error e, [], [.get_holdings_for_user 5]⟩)
  ∧ (∀ gc : StructuredGrowwClient,
      gc.get_latest_index_data "NIFTY" Exchange.NSE Segment.CASH 5 = .error e →
      get_latest_index_data gc =
        ⟨.error e, [],
         [.get_latest_index_data "NIFTY" Exchange.NSE Segment.CASH 5]⟩)
  ∧ (∀ (sym : String) (ex : Exchange) (sg : Segment)
      (gc : StructuredGrowwClient),
      gc.get_latest_price_data sym ex sg 5 = .error e →
      get_latest_price_data sym ex sg gc =
        ⟨.error e, [], [.get_latest_price_data sym ex sg 5]⟩)
  ∧ (∀ (sym : String) (ex : Exchange) (sg : Segment)
      (gc : StructuredGrowwClient),
      gc.get_market_depth sym ex sg 5 = .error e →
      get_market_depth sym ex sg gc =
        ⟨.error e, [], [.get_market_depth sym ex sg 5]⟩)
  ∧ (∀ (d : Duration) (ex : Exchange) (tt : TransactionType) (ot : OrderType)
      (p : Rat) (pr : Product) (q : Int) (sg : Segment) (sym : String)
      (t : Int) (gc : StructuredGrowwClient),
      gc.place_order d ex tt ot p pr q sg sym t = .error e →
      place_order d ex tt ot p pr q sg sym t gc =
        ⟨.error e, [], [.place_order d ex tt ot p pr q sg sym t]⟩)
  ∧ (∀ (ot : OrderType) (p : Rat) (q : Int) (sg : Segment)
      (co : OrderResponse) (gc : StructuredGrowwClient),
      gc.modify_order co.groww_order_id co.order_reference_id ot p q sg 5
        = .error e →
      modify_order ot p q sg co gc =
        ⟨.error e, [],
         [.modify_order co.groww_order_id co.order_reference_id ot p q sg 5]⟩)
  ∧ (∀ (co : OrderResponse) (gc : StructuredGrowwClient),
      gc.get_trade_list_for_order co.groww_order_id Segment.CASH 5 = .error e →
      get_trades co gc =
        ⟨.error e, [],
         [.get_trade_list_for_order co.groww_order_id Segment.CASH 5]⟩)
  ∧ (∀ (co : OrderResponse) (gc : StructuredGrowwClient),
      gc.cancel_order co.groww_order_id co.order_reference_id Segment.CASH 5
        = .error e →
      cancel_order co gc =
        ⟨.error e, [],
         [.cancel_order co.groww_order_id co.order_reference_id
           Segment.CASH 5]⟩)
  ∧ (∀ (co : OrderResponse) (gc : StructuredGrowwClient),
      e.isKeyError = false →
      gc.get_order_detail co.groww_order_id Segment.CASH 5 = .error e →
      get_order_details co gc =
        ⟨.error e, [], [.get_order_detail co.groww_order_id Segment.CASH 5]⟩)
  ∧ (∀ gc : StructuredGrowwClient,
      gc.get_positions_for_user Segment.CASH 5 = .error e →
      get_positions gc =
        ⟨.error e, [], [.get_positions_for_user Segment.CASH 5]⟩)
  ∧ (∀ (sym : String) (gc : StructuredGrowwClient),
      gc.get_position_for_symbol sym 5 = .error e →
      get_position_for_symbol sym gc =
        ⟨.error e, [], [.get_position_for_symbol sym 5]⟩)
  ∧ (∀ gc : StructuredGrowwClient,
      gc.get_available_margin_details 5 = .error e →
      get_available_margin_for_user gc =
        ⟨.error e, [], [.get_available_margin_details 5]⟩) := by
  refine ⟨?_, ?_, ?_, ?_, ?_, ?_, ?_, ?_, ?_, ?_, ?_, ?_, ?_⟩
  · intro gc h
    simp [get_current_orders, h, he]
  · intro gc h
    simp [get_holdings, h, he]
  · intro gc h
    simp [get_latest_index_data, h, he]
  · intro sym ex sg gc h
    simp [get_latest_price_data, h, he]
  · intro sym ex sg gc h
    simp [get_market_depth, h, he]
  · intro d ex tt ot p pr q sg sym t gc h
    simp [place_order, h, he]
  · intro ot p q sg co gc h
    simp [modify_order, h, he]
  · intro co gc h
    simp [get_trades, h, he]
  · intro co gc h
    simp [cancel_order, h, he]
  · intro co gc hk h
    simp [get_order_details, h, he, hk]
  · intro gc h
    simp [get_positions, h, he]
  · intro sym gc h
    simp [get_position_for_symbol, h, he]
  · intro gc h
    simp [get_available_margin_for_user, h, he]

/-- Witness for the amended C3: a concrete TypeError propagates unmodified
and unlogged out of place_order, and also out of get_order_details since it
is neither GrowwClientException nor KeyError. -/
theorem non_groww_exceptions_propagate_witness :
    place_order Duration.DAY Exchange.NSE TransactionType.BUY OrderType.LIMIT
        100 Product.CO 10 Segment.CASH "INE040A01034" 5
        (raisingClient (PyExn.typeError "bad argument")) =
      ⟨.error (PyExn.typeError "bad argument"), [],
       [.place_order Duration.DAY Exchange.NSE TransactionType.BUY
         OrderType.LIMIT 100 Product.CO 10 Segment.CASH "INE040A01034" 5]⟩
    ∧ get_order_details sampleOrder
        (raisingClient (PyExn.typeError "bad argument")) =
      ⟨.error (PyExn.typeError "bad argument"), [],
       [.get_order_detail "GID-1" Segment.CASH 5]⟩ :=
  ⟨(non_groww_exceptions_propagate (PyExn.typeError "bad argument") rfl).2.2.2.2.2.1
      Duration.DAY Exchange.NSE TransactionType.BUY OrderType.LIMIT
      100 Product.CO 10 Segment.CASH "INE040A01034" 5
      (raisingClient (PyExn.typeError "bad argument")) rfl,
   (non_groww_exceptions_propagate (PyExn.typeError "bad argument")
      rfl).2.2.2.2.2.2.2.2.2.1 sampleOrder
      (raisingClient (PyExn.typeError "bad argument")) rfl rfl⟩

/-- C4: every façade call, on each execution path on which it returns
(success or operational failure), emits exactly one log entry summarizing
the outcome: an INFO-level entry containing the response on success, an
ERROR-level entry containing the error on operational failure — never zero
and never more than one. (On a propagating non-operational exception the
call does not return.) -/
theorem facade_logs_exactly_once (gc : StructuredGrowwClient) :
    ((∀ v, gc.get_order_list () = .ok v →
      (get_current_orders gc).logs = [⟨.INFO, "Current orders: %s", .orderList v⟩])
    ∧ ∀ e, e.isGrowwClientException = true → gc.get_order_list () = .error e →
      (get_current_orders gc).logs = [⟨.ERROR, "Failed to get orders: %s", .exn e⟩])
  ∧ ((∀ v, gc.get_holdings_for_user 5 = .ok v →
      (get_holdings gc).logs = [⟨.INFO, "Holdings: %s", .holdings v⟩])
    ∧ ∀ e, e.isGrowwClientException = true →
      gc.get_holdings_for_user 5 = .error e →
      (get_holdings gc).logs = [⟨.ERROR, "Failed to get holdings: %s", .exn e⟩])
  ∧ ((∀ v, gc.get_latest_index_data "NIFTY" Exchange.NSE Segment.CASH 5 = .ok v →
      (get_latest_index_data gc).logs
        = [⟨.INFO, "Latest index data: %s", .latestIndex v⟩])
    ∧ ∀ e, e.isGrowwClientException = true →
      gc.get_latest_index_data "NIFTY" Exchange.NSE Segment.CASH 5 = .error e →
      (get_latest_index_data gc).logs
        = [⟨.ERROR, "Failed to get latest index data: %s", .exn e⟩])
  ∧ (∀ (sym : String) (ex : Exchange) (sg : Segment),
      (∀ v, gc.get_latest_price_data sym ex sg 5 = .ok v →
        (get_latest_price_data sym ex sg gc).logs
          = [⟨.INFO, "Latest price data: %s", .latestPrice v⟩])
      ∧ ∀ e, e.isGrowwClientException = true →
        gc.get_latest_price_data sym ex sg 5 = .error e →
        (get_latest_price_data sym ex sg gc).logs
          = [⟨.ERROR, "Failed to get latest price data: %s", .exn e⟩])
  ∧ (∀ (sym : String) (ex : Exchange) (sg : Segment),
      (∀ v, gc.get_market_depth sym ex sg 5 = .ok v →
        (get_market_depth sym ex sg gc).logs
          = [⟨.INFO, "Market depth data: %s", .marketDepth v⟩])
      ∧ ∀ e, e.isGrowwClientException = true →
        gc.get_market_depth sym ex sg 5 = .error e →
        (get_market_depth sym ex sg gc).logs
          = [⟨.ERROR, "Failed to get market depth data: %s", .exn e⟩])
  ∧ (∀ (d : Duration) (ex : Exchange) (tt : TransactionType) (ot : OrderType)
      (p : Rat) (pr : Product) (q : Int) (sg : Segment) (sym : String)
      (t : Int),
      (∀ v, gc.place_order d ex tt ot p pr q sg sym t = .ok v →
        (place_order d ex tt ot p pr q sg sym t gc).logs
          = [⟨.INFO, "Order placed: %s", .order v⟩])
      ∧ ∀ e, e.isGrowwClientException = true →
        gc.place_order d ex tt ot p pr q sg sym t = .error e →
        (place_order d ex tt ot p pr q sg sym t gc).logs
          = [⟨.ERROR, "Failed to place order: %s", .exn e⟩])
  ∧ (∀ (ot : OrderType) (p : Rat) (q : Int) (sg : Segment)
      (co : OrderResponse),
      (∀ v, gc.modify_order co.groww_order_id co.order_reference_id
          ot p q sg 5 = .ok v →
        (modify_order ot p q sg co gc).logs
          = [⟨.INFO, "Order modified: %s", .modifyOrder v⟩])
      ∧ ∀ e, e.isGrowwClientException = true →
        gc.modify_order co.groww_order_id co.order_reference_id ot p q sg 5
          = .error e →
        (modify_order ot p q sg co gc).logs
          = [⟨.ERROR, "Failed to modify order: %s", .exn e⟩])
  ∧ (∀ co : OrderResponse,
      (∀ v, gc.get_trade_list_for_order co.groww_order_id Segment.CASH 5
          = .ok v →
        (get_trades co gc).logs = [⟨.INFO, "Trades: %s", .trades v⟩])
      ∧ ∀ e, e.isGrowwClientException = true →
        gc.get_trade_list_for_order co.groww_order_id Segment.CASH 5
          = .error e →
        (get_trades co gc).logs
          = [⟨.ERROR, "Failed to get trades: %s", .exn e⟩])
  ∧ (∀ co : OrderResponse,
      (∀ v, gc.cancel_order co.groww_order_id co.order_reference_id
          Segment.CASH 5 = .ok v →
        (cancel_order co gc).logs
          = [⟨.INFO, "Order canceled: %s", .cancelOrder v⟩])
      ∧ ∀ e, e.isGrowwClientException = true →
        gc.cancel_order co.groww_order_id co.order_reference_id
          Segment.CASH 5 = .error e →
        (cancel_order co gc).logs
          = [⟨.ERROR, "Failed to cancel order: %s", .exn e⟩])
  ∧ (∀ co : OrderResponse,
      (∀ v, gc.get_order_detail co.groww_order_id Segment.CASH 5 = .ok v →
        (get_order_details co gc).logs
          = [⟨.INFO, "Order details: %s", .orderDetail v⟩])
      ∧ ∀ e, e.isGrowwClientException = true →
        gc.get_order_detail co.groww_order_id Segment.CASH 5 = .error e →
        (get_order_details co gc).logs
          = [⟨.ERROR, "Failed to get order details: %s", .exn e⟩])
  ∧ ((∀ v, gc.get_positions_for_user Segment.CASH 5 = .ok v →
      (get_positions gc).logs = [⟨.INFO, "Positions: %s", .positions v⟩])
    ∧ ∀ e, e.isGrowwClientException = true →
      gc.get_positions_for_user Segment.CASH 5 = .error e →
      (get_positions gc).logs
        = [⟨.ERROR, "Failed to get positions: %s", .exn e⟩])
  ∧ (∀ sym : String,
      (∀ v, gc.get_position_for_symbol sym 5 = .ok v →
        (get_position_for_symbol sym gc).logs
          = [⟨.INFO, "Positions for symbol: %s", .positionsForSymbol v⟩])
      ∧ ∀ e, e.isGrowwClientException = true →
        gc.get_position_for_symbol sym 5 = .error e →
        (get_position_for_symbol sym gc).logs
          = [⟨.ERROR, "Failed to get positions for symbol: %s", .exn e⟩])
  ∧ ((∀ v, gc.get_available_margin_details 5 = .ok v →
      (get_available_margin_for_user gc).logs
        = [⟨.INFO, "Margin available: %s", .margin v⟩])
    ∧ ∀ e, e.isGrowwClientException = true →
      gc.get_available_margin_details 5 = .error e →
      (get_available_margin_for_user gc).logs
        = [⟨.ERROR, "Failed to get margin available: %s", .exn e⟩]) := by
  refine ⟨⟨?_, ?_⟩, ⟨?_, ?_⟩, ⟨?_, ?_⟩, ?_, ?_, ?_, ?_, ?_, ?_, ?_,
    ⟨?_, ?_⟩, ?_, ⟨?_, ?_⟩⟩
  · intro v h
    simp [get_current_orders, h]
  · intro e he h
    simp [get_current_orders, h, he]
  · intro v h
    simp [get_holdings, h]
  · intro e he h
    simp [get_holdings, h, he]
  · intro v h
    simp [get_latest_index_data, h]
  · intro e he h
    simp [get_latest_index_data, h, he]
  · intro sym ex sg
    constructor
    · intro v h
      simp [get_latest_price_data, h]
    · intro e he h
      simp [get_latest_price_data, h, he]
  · intro sym ex sg
    constructor
    · intro v h
      simp [get_market_depth, h]
    · intro e he h
      simp [get_market_depth, h, he]
  · intro d ex tt ot p pr q sg sym t
    constructor
    · intro v h
      simp [place_order, h]
    · intro e he h
      simp [place_order, h, he]
  · intro ot p q sg co
    constructor
    · intro v h
      simp [modify_order, h]
    · intro e he h
      simp [modify_order, h, he]
  · intro co
    constructor
    · intro v h
      simp [get_trades, h]
    · intro e he h
      simp [get_trades, h, he]
  · intro co
    constructor
    · intro v h
      simp [cancel_order, h]
    · intro e he h
      simp [cancel_order, h, he]
  · intro co
    constructor
    · intro v h
      simp [get_order_details, h]
    · intro e he h
      simp [get_order_details, h, he]
  · intro v h
    simp [get_positions, h]
  · intro e he h
    simp [get_positions, h, he]
  · intro sym
    constructor
    · intro v h
      simp [get_position_for_symbol, h]
    · intro e he h
      simp [get_position_for_symbol, h, he]
  · intro v h
    simp [get_available_margin_for_user, h]
  · intro e he h
    simp [get_available_margin_for_user, h, he]

/-- Witness for C4: on a client that succeeds, get_current_orders emits
exactly one INFO entry containing the response; on a client that raises a
GrowwClientException, it emits exactly one ERROR entry containing the
error. -/
theorem facade_logs_exactly_once_witness :
    (get_current_orders okClient).logs
      = [⟨.INFO, "Current orders: %s", .orderList ⟨"orders"⟩⟩]
    ∧ (get_current_orders (raisingClient (PyExn.growwClientException "down"))).logs
      = [⟨.ERROR, "Failed to get orders: %s",
          .exn (PyExn.growwClientException "down")⟩] :=
  ⟨(facade_logs_exactly_once okClient).1.1 ⟨"orders"⟩ rfl,
   (facade_logs_exactly_once
      (raisingClient (PyExn.growwClientException "down"))).1.2
      (PyExn.growwClientException "down") rfl rfl⟩

/-- Counterexample to C5: the timeout a façade operation applies is not, in
general, a caller-supplied one. `get_holdings` and `modify_order` take no
timeout parameter at all, yet each issues its client request with the
façade's own fixed timeout 5. -/
theorem facade_timeout_not_caller_supplied :
    (get_holdings okClient).calls.map ClientRequest.timeoutArg = [some 5]
    ∧ (modify_order OrderType.LIMIT 100 10 Segment.CASH sampleOrder
        okClient).calls.map ClientRequest.timeoutArg = [some 5] :=
  ⟨rfl, rfl⟩

/-- C5 as amended: every façade operation invokes the underlying client
exactly once per call — its request trace is a single request — with no
internal retry and no backoff; place_order forwards the caller-supplied
timeout unchanged, get_current_orders passes no timeout at all, and each of
the remaining eleven operations passes the façade's own fixed timeout 5 to
the underlying client. -/
theorem facade_single_call_fixed_timeouts :
    (∀ gc : StructuredGrowwClient,
      (get_current_orders gc).calls = [.get_order_list])
  ∧ (∀ gc : StructuredGrowwClient,
      (get_holdings gc).calls = [.get_holdings_for_user 5])
  ∧ (∀ gc : StructuredGrowwClient,
      (get_latest_index_data gc).calls
        = [.get_latest_index_data "NIFTY" Exchange.NSE Segment.CASH 5])
  ∧ (∀ (sym : String) (ex : Exchange) (sg : Segment)
      (gc : StructuredGrowwClient),
      (get_latest_price_data sym ex sg gc).calls
        = [.get_latest_price_data sym ex sg 5])
  ∧ (∀ (sym : String) (ex : Exchange) (sg : Segment)
      (gc : StructuredGrowwClient),
      (get_market_depth sym ex sg gc).calls = [.get_market_depth sym ex sg 5])
  ∧ (∀ (d : Duration) (ex : Exchange) (tt : TransactionType) (ot : OrderType)
      (p : Rat) (pr : Product) (q : Int) (sg : Segment) (sym : String)
      (t : Int) (gc : StructuredGrowwClient),
      (place_order d ex tt ot p pr q sg sym t gc).calls
        = [.place_order d ex tt ot p pr q sg sym t])
  ∧ (∀ (ot : OrderType) (p : Rat) (q : Int) (sg : Segment)
      (co : OrderResponse) (gc : StructuredGrowwClient),
      (modify_order ot p q sg co gc).calls
        = [.modify_order co.groww_order_id co.order_reference_id ot p q sg 5])
  ∧ (∀ (co : OrderResponse) (gc : StructuredGrowwClient),
      (get_trades co gc).calls
        = [.get_trade_list_for_order co.groww_order_id Segment.CASH 5])
  ∧ (∀ (co : OrderResponse) (gc : StructuredGrowwClient),
      (cancel_order co gc).calls
        = [.cancel_order co.groww_order_id co.order_reference_id
            Segment.CASH 5])
  ∧ (∀ (co : OrderResponse) (gc : StructuredGrowwClient),
      (get_order_details co gc).calls
        = [.get_order_detail co.groww_order_id Segment.CASH 5])
  ∧ (∀ gc : StructuredGrowwClient,
      (get_positions gc).calls = [.get_positions_for_user Segment.CASH 5])
  ∧ (∀ (sym : String) (gc : StructuredGrowwClient),
      (get_position_for_symbol sym gc).calls
        = [.get_position_for_symbol sym 5])
  ∧ (∀ gc : StructuredGrowwClient,
      (get_available_margin_for_user gc).calls
        = [.get_available_margin_details 5])
  ∧ (∀ gc : StructuredGrowwClient,
      (get_current_orders gc).calls.map ClientRequest.timeoutArg = [none])
  ∧ (∀ gc : StructuredGrowwClient,
      (get_holdings gc).calls.map ClientRequest.timeoutArg = [some 5])
  ∧ (∀ gc : StructuredGrowwClient,
      (get_latest_index_data gc).calls.map ClientRequest.timeoutArg
        = [some 5])
  ∧ (∀ (sym : String) (ex : Exchange) (sg : Segment)
      (gc : StructuredGrowwClient),
      (get_latest_price_data sym ex sg gc).calls.map ClientRequest.timeoutArg
        = [some 5])
  ∧ (∀ (sym : String) (ex : Exchange) (sg : Segment)
      (gc : StructuredGrowwClient),
      (get_market_depth sym ex sg gc).calls.map ClientRequest.timeoutArg
        = [some 5])
  ∧ (∀ (d : Duration) (ex : Exchange) (tt : TransactionType) (ot : OrderType)
      (p : Rat) (pr : Product) (q : Int) (sg : Segment) (sym : String)
      (t : Int) (gc : StructuredGrowwClient),
      (place_order d ex tt ot p pr q sg sym t gc).calls.map
        ClientRequest.timeoutArg = [some t])
  ∧ (∀ (ot : OrderType) (p : Rat) (q : Int) (sg : Segment)
      (co : OrderResponse) (gc : StructuredGrowwClient),
      (modify_order ot p q sg co gc).calls.map ClientRequest.timeoutArg
        = [some 5])
  ∧ (∀ (co : OrderResponse) (gc : StructuredGrowwClient),
      (get_trades co gc).calls.map ClientRequest.timeoutArg = [some 5])
  ∧ (∀ (co : OrderResponse) (gc : StructuredGrowwClient),
      (cancel_order co gc).calls.map ClientRequest.timeoutArg = [some 5])
  ∧ (∀ (co : OrderResponse) (gc : StructuredGrowwClient),
      (get_order_details co gc).calls.map ClientRequest.timeoutArg
        = [some 5])
  ∧ (∀ gc : StructuredGrowwClient,
      (get_positions gc).calls.map ClientRequest.timeoutArg = [some 5])
  ∧ (∀ (sym : String) (gc : StructuredGrowwClient),
      (get_position_for_symbol sym gc).calls.map ClientRequest.timeoutArg
        = [some 5])
  ∧ (∀ gc : StructuredGrowwClient,
      (get_available_margin_for_user gc).calls.map ClientRequest.timeoutArg
        = [some 5]) := by
  refine ⟨get_current_orders_calls, get_holdings_calls,
    get_latest_index_data_calls, get_latest_price_data_calls,
    get_market_depth_calls, place_order_calls, modify_order_calls,
    get_trades_calls, cancel_order_calls, get_order_details_calls,
    get_positions_calls, get_position_for_symbol_calls,
    get_available_margin_for_user_calls,
    ?_, ?_, ?_, ?_, ?_, ?_, ?_, ?_, ?_, ?_, ?_, ?_, ?_⟩
  · intro gc
    simp [get_current_orders_calls, ClientRequest.timeoutArg]
  · intro gc
    simp [get_holdings_calls, ClientRequest.timeoutArg]
  · intro gc
    simp [get_latest_index_data_calls, ClientRequest.timeoutArg]
  · intro sym ex sg gc
    simp [get_latest_price_data_calls, ClientRequest.timeoutArg]
  · intro sym ex sg gc
    simp [get_market_depth_calls, ClientRequest.timeoutArg]
  · intro d ex tt ot p pr q sg sym t gc
    simp [place_order_calls, ClientRequest.timeoutArg]
  · intro ot p q sg co gc
    simp [modify_order_calls, ClientRequest.timeoutArg]
  · intro co gc
    simp [get_trades_calls, ClientRequest.timeoutArg]
  · intro co gc
    simp [cancel_order_calls, ClientRequest.timeoutArg]
  · intro co gc
    simp [get_order_details_calls, ClientRequest.timeoutArg]
  · intro gc
    simp [get_positions_calls, ClientRequest.timeoutArg]
  · intro sym gc
    simp [get_position_for_symbol_calls, ClientRequest.timeoutArg]
  · intro gc
    simp [get_available_margin_for_user_calls, ClientRequest.timeoutArg]

/-- C6: get_positions and get_trades distinguish an empty result from
failure: whenever the underlying client succeeds — in particular with an
empty mapping or an empty sequence — the operation returns exactly that
value and never None; and a None result can only arise from the client
raising a GrowwClientException. -/
theorem empty_result_distinct_from_failure (gc : StructuredGrowwClient) :
    (∀ v, gc.get_positions_for_user Segment.CASH 5 = .ok v →
      (get_positions gc).result = .ok (some v))
  ∧ ((get_positions gc).result = .ok none →
      ∃ e, gc.get_positions_for_user Segment.CASH 5 = .error e
        ∧ e.isGrowwClientException = true)
  ∧ (∀ (co : OrderResponse) v,
      gc.get_trade_list_for_order co.groww_order_id Segment.CASH 5 = .ok v →
      (get_trades co gc).result = .ok (some v))
  ∧ (∀ co : OrderResponse, (get_trades co gc).result = .ok none →
      ∃ e, gc.get_trade_list_for_order co.groww_order_id Segment.CASH 5
          = .error e
        ∧ e.isGrowwClientException = true) := by
  refine ⟨?_, ?_, ?_, ?_⟩
  · intro v h
    simp [get_positions, h]
  · intro h
    unfold get_positions at h
    cases hc : gc.get_positions_for_user Segment.CASH 5 with
    | ok v =>
      rw [hc] at h
      simp at h
    | error e =>
      rw [hc] at h
      by_cases he : e.isGrowwClientException = true
      · exact ⟨e, rfl, he⟩
      · simp [he] at h
  · intro co v h
    simp [get_trades, h]
  · intro co h
    unfold get_trades at h
    cases hc : gc.get_trade_list_for_order co.groww_order_id Segment.CASH 5 with
    | ok v =>
      rw [hc] at h
      simp at h
    | error e =>
      rw [hc] at h
      by_cases he : e.isGrowwClientException = true
      · exact ⟨e, rfl, he⟩
      · simp [he] at h

/-- Witness for C6: on a client that succeeds with the empty position
mapping and the empty trade sequence, get_positions returns that empty
mapping and get_trades returns that empty sequence — not None. -/
theorem empty_result_distinct_from_failure_witness :
    (get_positions okClient).result
      = .ok (some { symbol_wise_positions := [] })
    ∧ (get_trades sampleOrder okClient).result
      = .ok (some { trade_list := [] }) :=
  ⟨(empty_result_distinct_from_failure okClient).1
      { symbol_wise_positions := [] } rfl,
   (empty_result_distinct_from_failure okClient).2.2.1 sampleOrder
      { trade_list := [] } rfl⟩

/-- C7: the OrderHandle (the placement response with groww_order_id and
order_reference_id) is never mutated: modify_order, cancel_order,
get_order_details, and get_trades only read its identifier fields — two
handles agreeing on groww_order_id and order_reference_id yield identical
behaviour (same result, same logs, same issued requests) — and the requests
each operation issues carry the handle's identifiers unchanged. -/
theorem order_handle_never_mutated (h1 h2 : OrderResponse)
    (hid : h1.groww_order_id = h2.groww_order_id)
    (href : h1.order_reference_id = h2.order_reference_id) :
    ∀ (ot : OrderType) (p : Rat) (q : Int) (sg : Segment)
      (gc : StructuredGrowwClient),
      modify_order ot p q sg h1 gc = modify_order ot p q sg h2 gc
      ∧ cancel_order h1 gc = cancel_order h2 gc
      ∧ get_order_details h1 gc = get_order_details h2 gc
      ∧ get_trades h1 gc = get_trades h2 gc
      ∧ (modify_order ot p q sg h1 gc).calls
          = [.modify_order h1.groww_order_id h1.order_reference_id ot p q sg 5]
      ∧ (cancel_order h1 gc).calls
          = [.cancel_order h1.groww_order_id h1.order_reference_id
              Segment.CASH 5]
      ∧ (get_order_details h1 gc).calls
          = [.get_order_detail h1.groww_order_id Segment.CASH 5]
      ∧ (get_trades h1 gc).calls
          = [.get_trade_list_for_order h1.groww_order_id Segment.CASH 5] := by
  intro ot p q sg gc
  refine ⟨?_, ?_, ?_, ?_, modify_order_calls ot p q sg h1 gc,
    cancel_order_calls h1 gc, get_order_details_calls h1 gc,
    get_trades_calls h1 gc⟩
  · simp only [modify_order, hid, href]
  · simp only [cancel_order, hid, href]
  · simp only [get_order_details, hid]
  · simp only [get_trades, hid]

/-- Witness for C7: two concrete handles with equal identifiers but
different remaining metadata are treated identically by modify_order. -/
theorem order_handle_never_mutated_witness :
    sampleOrder ≠ sampleOrderAlt
    ∧ modify_order OrderType.LIMIT 100 10 Segment.CASH sampleOrder okClient
      = modify_order OrderType.LIMIT 100 10 Segment.CASH sampleOrderAlt
          okClient :=
  ⟨by decide,
   (order_handle_never_mutated sampleOrder sampleOrderAlt rfl rfl
      OrderType.LIMIT 100 10 Segment.CASH okClient).1⟩

/-- Counterexample to C8: get_latest_index_data accepts no (symbol,
exchange, segment) inputs — it is a function of the client alone — and the
triple it queries is the hard-coded ("NIFTY", NSE, CASH) for every client,
so the client is not queried with a caller-supplied triple (in particular
never with any other symbol, such as "BANKNIFTY"). -/
theorem get_latest_index_data_ignores_caller :
    (get_latest_index_data okClient).calls
      = [.get_latest_index_data "NIFTY" Exchange.NSE Segment.CASH 5]
    ∧ (get_latest_index_data
        (raisingClient (PyExn.growwClientException "down"))).calls
      = [.get_latest_index_data "NIFTY" Exchange.NSE Segment.CASH 5]
    ∧ ClientRequest.get_latest_index_data "NIFTY" Exchange.NSE Segment.CASH 5
      ≠ ClientRequest.get_latest_index_data "BANKNIFTY" Exchange.NSE
          Segment.CASH 5 :=
  ⟨rfl, rfl, by decide⟩

/-- C8 as amended: get_latest_index_data accepts no symbol, exchange, or
segment inputs; every call queries the underlying client with exactly the
fixed triple (symbol "NIFTY", exchange NSE, segment CASH) and fixed timeout
5, and on success returns the index snapshot for that fixed symbol. -/
theorem get_latest_index_data_fixed_triple (gc : StructuredGrowwClient) :
    (get_latest_index_data gc).calls
      = [.get_latest_index_data "NIFTY" Exchange.NSE Segment.CASH 5]
    ∧ ∀ v, gc.get_latest_index_data "NIFTY" Exchange.NSE Segment.CASH 5
        = .ok v →
      (get_latest_index_data gc).result = .ok (some v) := by
  refine ⟨get_latest_index_data_calls gc, ?_⟩
  intro v h
  simp [get_latest_index_data, h]

/-- Witness for the amended C8: on a concrete client, get_latest_index_data
issues exactly the fixed NIFTY/NSE/CASH request and returns the client's
snapshot. -/
theorem get_latest_index_data_fixed_triple_witness :
    (get_latest_index_data okClient).calls
      = [.get_latest_index_data "NIFTY" Exchange.NSE Segment.CASH 5]
    ∧ (get_latest_index_data okClient).result
      = .ok (some { payload := "index" }) :=
  ⟨(get_latest_index_data_fixed_triple okClient).1,
   (get_latest_index_data_fixed_triple okClient).2 { payload := "index" } rfl⟩

/-- C9: cancel_order, get_order_details, get_trades, and get_positions
always pass the fixed segment Segment.CASH to the underlying client — for
every order handle and every client, the single request each wrapper issues
carries segment CASH, regardless of the segment the original order was
placed in. -/
theorem wrappers_fix_segment_cash :
    ∀ (co : OrderResponse) (gc : StructuredGrowwClient),
      (cancel_order co gc).calls.map ClientRequest.segmentArg
        = [some Segment.CASH]
      ∧ (get_order_details co gc).calls.map ClientRequest.segmentArg
        = [some Segment.CASH]
      ∧ (get_trades co gc).calls.map ClientRequest.segmentArg
        = [some Segment.CASH]
      ∧ (get_positions gc).calls.map ClientRequest.segmentArg
        = [some Segment.CASH] := by
  intro co gc
  refine ⟨?_, ?_, ?_, ?_⟩ <;>
    simp [cancel_order_calls, get_order_details_calls, get_trades_calls,
      get_positions_calls, ClientRequest.segmentArg]

/-- C10: whenever the first two driver steps return (as they do for any
client whose failures are operational), test_groww_client raises an uncaught
TypeError — from calling get_latest_price_data with no arguments although
three are required — before completing its flow: the exception is not a
GrowwClientException, so it propagates out of the driver, and the request
trace stops after the two initial read requests, never reaching the order,
depth, holdings, or position flows. -/
theorem driver_raises_typeerror (gc : StructuredGrowwClient)
    (h1 : ∃ o, (get_current_orders gc).result = .ok o)
    (h2 : ∃ o, (get_latest_index_data gc).result = .ok o) :
    (test_groww_client gc).result
      = .error (PyExn.typeError
          "get_latest_price_data() missing 3 required positional arguments: symbol, exchange, and segment")
    ∧ (PyExn.typeError
        "get_latest_price_data() missing 3 required positional arguments: symbol, exchange, and segment").isGrowwClientException
      = false
    ∧ (test_groww_client gc).calls
      = [.get_order_list,
         .get_latest_index_data "NIFTY" Exchange.NSE Segment.CASH 5] := by
  obtain ⟨o1, h1⟩ := h1
  obtain ⟨o2, h2⟩ := h2
  refine ⟨?_, rfl, ?_⟩
  · simp [test_groww_client, h1, h2]
  · have hc1 := get_current_orders_calls gc
    have hc2 := get_latest_index_data_calls gc
    simp [test_groww_client, h1, h2, hc1, hc2]

/-- Witness for C10: on a concrete client that succeeds on every call, the
driver raises the TypeError and its trace stops after the two initial read
requests. -/
theorem driver_raises_typeerror_witness :
    (test_groww_client okClient).result
      = .error (PyExn.typeError
          "get_latest_price_data() missing 3 required positional arguments: symbol, exchange, and segment")
    ∧ (PyExn.typeError
        "get_latest_price_data() missing 3 required positional arguments: symbol, exchange, and segment").isGrowwClientException
      = false
    ∧ (test_groww_client okClient).calls
      = [.get_order_list,
         .get_latest_index_data "NIFTY" Exchange.NSE Segment.CASH 5] :=
  driver_raises_typeerror okClient ⟨some { payload := "orders" }, rfl⟩
    ⟨some { payload := "index" }, rfl⟩
